import Mathlib

/-!
The session lifecycle of `virtctl guestfs`.

A shallow embedding of `pkg/virtctl/guestfs/guestfs.go`.  The Kubernetes API
server and the attach transport are external: their answers are inputs of the
model (`K8sClient`, `Globals.createAttachFunc`), and every call that `run`
issues against them is recorded, in order, in a log of `Event`s.  A nil
pointer dereference, in `isPVCVolumeBlock` or in the polling goroutine of
`waitForContainerRunning`, ends the process: it is an outcome of its own
(`Result.nilDereference`), after which no further call is issued.
-/

namespace Guestfs

/-! ## Go errors -/

/-- Go `error` values met by this package.  `notFound` is the API status error
for which `apierrors.IsNotFound` holds (the object asked for is absent),
`failure` is any other transport or API failure, `errorf` is an error built by
`fmt.Errorf` in this package. -/
inductive GoError where
  | notFound (msg : String)
  | failure (msg : String)
  | errorf (msg : String)
  deriving DecidableEq, Repr

/-- The method `Error()` of a Go error: its message. -/
def GoError.Error : GoError → String
  | .notFound msg => msg
  | .failure msg => msg
  | .errorf msg => msg

/-! ## Constants (guestfs.go, lines 25-31 and 138-144; corev1 string constants) -/

def KvmDevice : String := "devices.kubevirt.io/kvm"
def volume : String := "volume"
def contName : String := "virt"
def diskDir : String := "/disks"
def diskPath : String := "/dev/vda"
def podName : String := "libguestfs-tools"

def PodPending : String := "Pending"
def PodRunning : String := "Running"
def PersistentVolumeBlock : String := "Block"
def PersistentVolumeFilesystem : String := "Filesystem"
def PullIfNotPresent : String := "IfNotPresent"
def RestartPolicyNever : String := "Never"

/-! ## The part of the corev1 object model that the package reads or writes -/

structure PersistentVolumeClaimVolumeSource where
  claimName : String
  readOnly : Bool
  deriving DecidableEq, Repr

/-- A pod volume.  `persistentVolumeClaim` is the pointer field
`VolumeSource.PersistentVolumeClaim` (`none` is nil); `otherSource` stands for
whichever other source of the volume is set, which the package never reads. -/
structure Volume where
  name : String
  persistentVolumeClaim : Option PersistentVolumeClaimVolumeSource
  otherSource : Option String := none
  deriving DecidableEq, Repr

structure VolumeMount where
  name : String
  readOnly : Bool
  mountPath : String
  deriving DecidableEq, Repr

structure VolumeDevice where
  name : String
  devicePath : String
  deriving DecidableEq, Repr

structure EnvVar where
  name : String
  value : String
  deriving DecidableEq, Repr

structure SecurityContext where
  runAsUser : Option Int
  runAsGroup : Option Int
  deriving DecidableEq, Repr

/-- The zero value has no limits (`limits = []`). -/
structure ResourceRequirements where
  limits : List (String × String) := []
  deriving DecidableEq, Repr

structure Container where
  name : String := ""
  image : String := ""
  command : List String := []
  args : List String := []
  workingDir : String := ""
  env : List EnvVar := []
  resources : ResourceRequirements := {}
  volumeMounts : List VolumeMount := []
  volumeDevices : List VolumeDevice := []
  imagePullPolicy : String := ""
  securityContext : Option SecurityContext := none
  stdin : Bool := false
  tty : Bool := false
  deriving DecidableEq, Repr

structure PodSpec where
  volumes : List Volume := []
  containers : List Container := []
  restartPolicy : String := ""
  deriving DecidableEq, Repr

structure ContainerStateWaiting where
  reason : String
  message : String
  deriving DecidableEq, Repr

structure ContainerStatus where
  name : String
  waiting : Option ContainerStateWaiting := none
  deriving DecidableEq, Repr

structure PodStatus where
  phase : String := ""
  containerStatuses : List ContainerStatus := []
  deriving DecidableEq, Repr

/-- A `corev1.Pod`; `name` and `ns` are `ObjectMeta.Name` and
`ObjectMeta.Namespace`. -/
structure Pod where
  name : String := ""
  ns : String := ""
  spec : PodSpec := {}
  status : PodStatus := {}
  deriving DecidableEq, Repr

/-- A `corev1.PersistentVolumeClaim`; `volumeMode` is the pointer field
`Spec.VolumeMode` (`none` is nil). -/
structure PersistentVolumeClaim where
  name : String := ""
  ns : String := ""
  volumeMode : Option String := none
  deriving DecidableEq, Repr

/-! ## createLibguestfsPod (guestfs.go, lines 260-332) -/

/-- Update of `c.Spec.Containers[0]`. -/
def Pod.updateContainer0 (c : Pod) (f : Container → Container) : Pod :=
  { c with spec := { c.spec with containers :=
      match c.spec.containers with
      | [] => []
      | c0 :: rest => f c0 :: rest } }

/-- The pod descriptor of the session (lines 260-332).  The messages written to
standard output are not part of the model. -/
def createLibguestfsPod (pvc image cmd : String) (args : List String)
    (kvm isBlock : Bool) : Pod :=
  let user : Int := 0
  let group : Int := 0
  let resources : ResourceRequirements :=
    if kvm then { limits := [(KvmDevice, "1")] } else {}
  let c : Pod :=
    { name := podName
      spec :=
        { volumes :=
            [ { name := volume
                persistentVolumeClaim := some { claimName := pvc, readOnly := false } } ]
          containers :=
            [ { name := contName
                image := image
                command := [cmd]
                args := args
                env := [ { name := "LIBGUESTFS_BACKEND", value := "direct" } ]
                imagePullPolicy := PullIfNotPresent
                securityContext := some { runAsUser := some user, runAsGroup := some group }
                stdin := true
                tty := true
                resources := resources } ]
          restartPolicy := RestartPolicyNever } }
  if isBlock then
    c.updateContainer0 fun c0 =>
      { c0 with volumeDevices := c0.volumeDevices ++ [ { name := volume, devicePath := diskPath } ] }
  else
    -- PVC volume mode is filesystem
    let c := c.updateContainer0 fun c0 =>
      { c0 with volumeMounts :=
          c0.volumeMounts ++ [ { name := volume, readOnly := false, mountPath := diskDir } ] }
    c.updateContainer0 fun c0 => { c0 with workingDir := diskDir }

/-! ## The platform client -/

/-- What `Pods(ns).Get` hands back: the pair `(pod, err)`.  `pod` is the
pointer `*corev1.Pod` (`none` is nil): a client may answer a failed get with a
nil pod, as the client-go fake does, or with a non-nil zero pod, as the typed
client does.  The polling loop reads both components. -/
structure PodGetAnswer where
  pod : Option Pod := none
  err : Option GoError := none
  deriving DecidableEq, Repr

/-- `K8sClient.Client`, the `kubernetes.Interface` as this package uses it: the
answers of the platform to the five operations consumed.  The store behind
them is external, so every answer is an input.  `claimGet n` answers the
`n`-th `PersistentVolumeClaims(ns).Get` of a session (counting from 0) and
`podGet i` the `i`-th `Pods(ns).Get` of the readiness poll, so that answers may
change from one call to the next. -/
structure K8sClient where
  claimGet : Nat → (ns name : String) → Except GoError PersistentVolumeClaim
  podList : (ns : String) → Except GoError (List Pod)
  podCreate : (ns : String) → Pod → Except GoError Pod
  podGet : Nat → (ns name : String) → PodGetAnswer
  podDelete : (ns name : String) → Option GoError

/-- Outcome of a Go call that may dereference a nil pointer: the value it
returns, or the panic, which nothing recovers and which ends the process. -/
inductive Result (α : Type) where
  | returned (v : α)
  | nilDereference
  deriving DecidableEq, Repr

/-- Lines 164-173.  `nth` is the number of claim gets issued before this one. -/
def K8sClient.existsPVC (client : K8sClient) (nth : Nat) (pvc ns : String) :
    Bool × Option GoError :=
  match client.claimGet nth ns pvc with
  | .error err => (false, some err)
  | .ok p => if p.name = "" then (false, none) else (true, none)

/-- Lines 175-184.  `*p.Spec.VolumeMode` dereferences the mode pointer. -/
def K8sClient.isPVCVolumeBlock (client : K8sClient) (nth : Nat) (pvc ns : String) :
    Result (Bool × Option GoError) :=
  match client.claimGet nth ns pvc with
  | .error err => .returned (false, some err)
  | .ok p =>
    match p.volumeMode with
    | none => .nilDereference
    | some mode =>
      if mode = PersistentVolumeBlock then .returned (true, none) else .returned (false, none)

/-- The test of line 251 on one volume. -/
def Volume.claims (v : Volume) (pvcName : String) : Bool :=
  match v.persistentVolumeClaim with
  | some src => src.claimName == pvcName
  | none => false

/-- Lines 241-258: the pod is appended once for each of its volumes that names
the claim. -/
def K8sClient.getPodsForPVC (client : K8sClient) (pvcName ns : String) :
    List Pod × Option GoError :=
  match client.podList ns with
  | .error err => ([], some err)
  | .ok items =>
    (items.foldl (fun pods pod =>
        pod.spec.volumes.foldl (fun pods v =>
          if v.claims pvcName then pods ++ [pod] else pods) pods) [],
     none)

/-- Lines 197-206. -/
def K8sClient.isPVCinUse (client : K8sClient) (pvc ns : String) : Bool × Option GoError :=
  match client.getPodsForPVC pvc ns with
  | (_, some err) => (false, some err)
  | (pods, none) => if pods.length > 0 then (true, none) else (false, none)

/-! ## The readiness poll (guestfs.go, lines 208-239)

The goroutine of lines 210-228 loops for ever: pod get, send of the error text
when the get failed (line 214), read of `pod.Status.Phase` (line 216, a nil
dereference when the get answered a nil pod), send of the phase when it is not
Pending (line 217), sleep.  The channel has capacity 1 and the `select` of
line 229 receives at most once.  Time is counted in iterations of this loop. -/

/-- How the `select` of lines 229-237 ends.  `received res gets room`: it
received `res`, the first message sent, after `gets` pod gets, and `room` tells
whether the buffer of the channel is still empty when the goroutine has
finished that iteration.  `timedOut gets`: the timer fired first, after `gets`
pod gets.  `panicked gets`: pod get number `gets - 1` answered a nil pod and
line 216 dereferenced it while the `select` was waiting. -/
inductive Waited where
  | received (res : String) (gets : Nat) (room : Bool)
  | timedOut (gets : Nat)
  | panicked (gets : Nat)
  deriving DecidableEq, Repr

/-- The polling goroutine once the `select` has returned and nobody receives
from the channel any more.  `polling next room`: it is about to issue pod get
number `next`, and `room` tells whether the buffer of the channel is empty;
`blocked`: it waits for ever in a send on the full channel; `panicked`: it has
dereferenced a nil pod, which ends the process; `idle`: it was never
started. -/
inductive Poller where
  | idle
  | polling (next : Nat) (room : Bool)
  | blocked
  | panicked
  deriving DecidableEq, Repr

/-- The iterations `i, ..., i + n - 1` of the polling loop while the `select`
waits on the empty channel; `n` is the number of iterations left before the
timer fires.  When a failed get answers a nil pod, line 214 sends and line 216
dereferences nil at once: the process is taken to end there, before the
receiver resumes. -/
def K8sClient.poll (client : K8sClient) (pod ns : String) : Nat → Nat → Waited
  | i, 0 => .timedOut i
  | i, n + 1 =>
    match (client.podGet i ns pod).err, (client.podGet i ns pod).pod with
    | _, none => .panicked (i + 1)
    | some err, some p => .received err.Error (i + 1) (p.status.phase == PodPending)
    | none, some p =>
      if p.status.phase ≠ PodPending then .received p.status.phase (i + 1) true
      else client.poll pod ns (i + 1) n

def Waited.gets : Waited → Nat
  | .received _ gets _ => gets
  | .timedOut gets => gets
  | .panicked gets => gets

/-- The polling goroutine as the `select` leaves it. -/
def Waited.poller : Waited → Poller
  | .received _ gets room => .polling gets room
  | .timedOut gets => .polling gets true
  | .panicked _ => .panicked

/-- Lines 208-239: what the call returns, or the end of the process in the
polling goroutine.  `timeout` is the number of iterations of the polling loop
that run before `time.After` fires.  Nothing stops the goroutine when the call
returns: it goes on from the state `Waited.poller` (see `K8sClient.pollOn`). -/
def K8sClient.waitForContainerRunning (client : K8sClient) (pod cont ns : String)
    (timeout : Nat) : Result (Option GoError) :=
  let _ := cont
  match client.poll pod ns 0 timeout with
  | .received res _ _ =>
    if res = PodRunning then .returned none
    else .returned (some (.errorf ("Pod is not in running state but got " ++ res)))
  | .timedOut _ =>
    .returned (some (.errorf ("timeout in waiting for the containers to be started in pod " ++ pod)))
  | .panicked _ => .nilDereference

/-- One iteration of the polling loop on the answer `a` of pod get number `i`,
when nobody receives: a send completes only into the empty buffer. -/
def pollStep (a : PodGetAnswer) (i : Nat) (room : Bool) : Poller :=
  let afterLine214 : Option Bool :=
    match a.err with
    | none => some room
    | some _ => if room then some false else none
  match afterLine214 with
  | none => .blocked
  | some room =>
    match a.pod with
    | none => .panicked
    | some p =>
      if p.status.phase ≠ PodPending then
        if room then .polling (i + 1) false else .blocked
      else .polling (i + 1) room

/-- The polling goroutine left to itself for the time of `n` iterations: the
state it reaches and the number of pod gets it issues. -/
def K8sClient.pollOn (client : K8sClient) (pod ns : String) : Nat → Poller → Poller × Nat
  | n + 1, .polling i room =>
    ((client.pollOn pod ns n (pollStep (client.podGet i ns pod) i room)).1,
     (client.pollOn pod ns n (pollStep (client.podGet i ns pod) i room)).2 + 1)
  | _, p => (p, 0)

/-! ## The session -/

/-- The calls of a session, in the order in which they are issued.
`waitReturned` marks the return of `waitForContainerRunning` with its result;
`attach` is the blocking call of the attach function; `podGet` is a pod get of
the polling goroutine. -/
inductive Event where
  | claimGet (ns name : String)
  | podList (ns : String)
  | podCreate (ns : String) (pod : Pod)
  | podGet (ns name : String)
  | waitReturned (err : Option GoError)
  | attach (pod : Pod) (command : String)
  | podDelete (ns name : String)
  deriving DecidableEq, Repr

def Event.isCreate : Event → Bool
  | .podCreate _ _ => true
  | _ => false

def Event.isDelete : Event → Bool
  | .podDelete _ _ => true
  | _ => false

def Event.isWaitReturned : Event → Bool
  | .waitReturned _ => true
  | _ => false

def Event.isAttach : Event → Bool
  | .attach _ _ => true
  | _ => false

/-- A `rest.Config`; its content is not read by this package. -/
structure RestConfig where
  host : String := ""
  deriving DecidableEq, Repr

set_option linter.dupNamespace false in
/-- The two methods of `clientcmd.ClientConfig` that `run` calls, with their
answers. -/
structure ClientConfig where
  Namespace : Except GoError String
  ClientConfig : Except GoError RestConfig

structure guestfsCommand where
  clientConfig : ClientConfig

/-- The package-level variables read during a session: the flags `pvc` and
`image`, the two swappable factories, and `timeout` (in iterations of the
polling loop, see `K8sClient.waitForContainerRunning`); and, because the
polling goroutine outlives `waitForContainerRunning`, the number of iterations
of its loop that run while the attach call and the deferred delete call are in
progress. -/
structure Globals where
  pvc : String
  image : String
  createClientFunc : RestConfig → Except GoError K8sClient
  createAttachFunc : Pod → String → Option GoError
  timeout : Nat
  pollsDuringAttach : Nat := 0
  pollsDuringDelete : Nat := 0

/-- What a call leaves behind: its value, or the end of the process; the calls
issued; the polling goroutine. -/
structure SessionCalls where
  ret : Result (Option GoError)
  calls : List Event
  poller : Poller

/-- Lines 354-366, with the calls issued.  The polling goroutine started by
line 361 goes on while the attach call of line 365 blocks. -/
def K8sClient.createInteractivePodWithPVC (client : K8sClient) (g : Globals)
    (pvc image ns command : String) (args : List String) (isblock : Bool) : SessionCalls :=
  let kvm := true
  let pod := createLibguestfsPod pvc image command args kvm isblock
  match client.podCreate ns pod with
  | .error err => ⟨.returned (some err), [.podCreate ns pod], .idle⟩
  | .ok p =>
    let waited := client.poll podName ns 0 g.timeout
    let gets := List.replicate waited.gets (Event.podGet ns podName)
    match client.waitForContainerRunning podName contName ns g.timeout with
    | .nilDereference => ⟨.nilDereference, [.podCreate ns pod] ++ gets, .panicked⟩
    | .returned (some err) =>
      ⟨.returned (some err), [.podCreate ns pod] ++ gets ++ [.waitReturned (some err)],
        waited.poller⟩
    | .returned none =>
      let during := client.pollOn podName ns g.pollsDuringAttach waited.poller
      let calls := [.podCreate ns pod] ++ gets ++ [.waitReturned none, .attach p command] ++
        List.replicate during.2 (Event.podGet ns podName)
      match during.1 with
      | .panicked => ⟨.nilDereference, calls, .panicked⟩
      | poller => ⟨.returned (g.createAttachFunc p command), calls, poller⟩

/-- Lines 368-370, with the call issued. -/
def K8sClient.removePod (client : K8sClient) (ns : String) : Option GoError × List Event :=
  (client.podDelete ns podName, [.podDelete ns podName])

/-- What `run` hands back, and the calls it issued. -/
structure RunResult where
  outcome : Result (Option GoError)
  log : List Event

/-- Line 134, `defer client.removePod(namespace)`, around the call `s` of line
135, `log` being the calls issued before.  When the call of line 135 has
returned, the deferred call runs and its own result is dropped; when the
process has ended in the polling goroutine, it does not run.  The polling
goroutine goes on while the delete call is in progress. -/
def K8sClient.deferRemovePod (client : K8sClient) (g : Globals) (ns : String)
    (log : List Event) (s : SessionCalls) : RunResult :=
  match s.ret with
  | .nilDereference => ⟨.nilDereference, log ++ s.calls⟩
  | .returned ret =>
    let (_, deferred) := client.removePod ns
    let during := client.pollOn podName ns g.pollsDuringDelete s.poller
    let log := log ++ s.calls ++ deferred ++ List.replicate during.2 (Event.podGet ns podName)
    match during.1 with
    | .panicked => ⟨.nilDereference, log⟩
    | _ => ⟨.returned ret, log⟩

/-- Lines 103-136. -/
def run (g : Globals) (c : guestfsCommand) : RunResult :=
  match c.clientConfig.Namespace with
  | .error err => ⟨.returned (some err), []⟩
  | .ok ns =>
  match c.clientConfig.ClientConfig with
  | .error err => ⟨.returned (some err), []⟩
  | .ok conf =>
  match g.createClientFunc conf with
  | .error err => ⟨.returned (some err), []⟩
  | .ok client =>
  let (exist, _) := client.existsPVC 0 g.pvc ns
  let log := [Event.claimGet ns g.pvc]
  if !exist then
    ⟨.returned (some (.errorf ("The PVC " ++ g.pvc ++ " doesn't exist"))), log⟩
  else
  let (inUse, err) := client.isPVCinUse g.pvc ns
  let log := log ++ [Event.podList ns]
  match err with
  | some err => ⟨.returned (some err), log⟩
  | none =>
  if inUse then
    ⟨.returned (some (.errorf ("PVC " ++ g.pvc ++ " is used by another pod"))), log⟩
  else
  let log := log ++ [Event.claimGet ns g.pvc]
  match client.isPVCVolumeBlock 1 g.pvc ns with
  | .nilDereference => ⟨.nilDereference, log⟩
  | .returned (_, some err) => ⟨.returned (some err), log⟩
  | .returned (isBlock, none) =>
  client.deferRemovePod g ns log
    (client.createInteractivePodWithPVC g g.pvc g.image ns "/bin/bash" [] isBlock)

/-! ## Fixtures of guestfs_test.go -/

def pvcName : String := "test-pvc"
def testNamespace : String := "default"

/-- The claim of lines 34-39 of the test file: no `Spec.VolumeMode`. -/
def testPVC : PersistentVolumeClaim := { name := pvcName, ns := testNamespace }

/-- The same claim with its volume mode set. -/
def testPVCWithMode (mode : String) : PersistentVolumeClaim :=
  { testPVC with volumeMode := some mode }

/-- The pod of lines 43-61 of the test file. -/
def podRunning : Pod :=
  { name := "libguestfs-tools", ns := testNamespace
    status := { phase := PodRunning, containerStatuses := [ { name := "virt" } ] } }

/-- The pod of lines 67-84 of the test file. -/
def otherPod : Pod :=
  { name := "test-pod", ns := testNamespace
    spec := { volumes := [ { name := "volume-test"
                             persistentVolumeClaim := some { claimName := pvcName, readOnly := false } } ] } }

/-- A scripted client in the manner of `fake.NewSimpleClientset(objects...)`: a
claim get answers the stored claim of that name and namespace, or a not-found
error; the pod list answers the stored pods of the namespace; create answers
the pod it was given, in the namespace; `reactor` answers the pod gets; delete
answers `del`. -/
def fakeClient (claims : List PersistentVolumeClaim) (pods : List Pod)
    (reactor : Nat → PodGetAnswer) (del : Option GoError) : K8sClient where
  claimGet _ ns name :=
    match claims.find? (fun p => p.name == name && p.ns == ns) with
    | some p => .ok p
    | none => .error (.notFound ("persistentvolumeclaims " ++ name ++ " not found"))
  podList ns := .ok (pods.filter (fun p => p.ns == ns))
  podCreate ns pod := .ok { pod with ns := ns }
  podGet i _ _ := reactor i
  podDelete _ _ := del

def testConfig : guestfsCommand :=
  { clientConfig := { Namespace := .ok testNamespace, ClientConfig := .ok {} } }

/-- The attacher of lines 26-28 of the test file. -/
def fakeCreateAttacher : Pod → String → Option GoError := fun _ _ => none

/-- The package variables of a test run against `client`: the timeout of 200
seconds is 20000 iterations of 10 milliseconds, and the fake attacher and the
fake delete return at once. -/
def testGlobals (client : K8sClient) : Globals :=
  { pvc := pvcName, image := "docker.io/afrosirh/libguestfs-tools:latest"
    createClientFunc := fun _ => .ok client
    createAttachFunc := fakeCreateAttacher
    timeout := 20000
    pollsDuringAttach := 0
    pollsDuringDelete := 0 }

/-- The package variables of a run against `client` whose attach call, an
interactive session, lasts one second (100 iterations of the polling loop). -/
def interactiveGlobals (client : K8sClient) : Globals :=
  { testGlobals client with pollsDuringAttach := 100 }

/-- Lines 40-65 of the test file (`fakeCreateClientPVC`), for a stored claim. -/
def fakeCreateClientPVC (claim : PersistentVolumeClaim) : K8sClient :=
  fakeClient [claim] [] (fun _ => { pod := some podRunning }) none

/-- Lines 66-88 of the test file. -/
def fakeCreateClientPVCinUse : K8sClient :=
  fakeClient [testPVC] [otherPod]
    (fun _ => { err := some (.notFound "pods libguestfs-tools not found") }) none

/-- Lines 89-92 of the test file. -/
def fakeCreateClient : K8sClient :=
  fakeClient [] []
    (fun _ => { err := some (.notFound "pods libguestfs-tools not found") }) none

/-- Validation passes for the session of `g` and `c`, run in namespace `ns`
against `client`: the namespace, the configuration and the client are
obtained; the claim exists (the first claim get answers a named claim); it is
unused (the pod list is answered and no listed pod has a volume naming the
claim); its volume mode resolves (the second claim get answers a claim whose
mode is set), `isBlock` telling whether that mode is Block. -/
structure ValidationPasses (g : Globals) (c : guestfsCommand) (ns : String)
    (client : K8sClient) (isBlock : Bool) : Prop where
  namespaceResolved : c.clientConfig.Namespace = .ok ns
  clientCreated : ∃ conf, c.clientConfig.ClientConfig = .ok conf ∧
    g.createClientFunc conf = .ok client
  claimExists : ∃ p, client.claimGet 0 ns g.pvc = .ok p ∧ p.name ≠ ""
  claimUnused : ∃ items, client.podList ns = .ok items ∧
    ∀ pod ∈ items, ∀ v ∈ pod.spec.volumes, ∀ src,
      v.persistentVolumeClaim = some src → src.claimName ≠ g.pvc
  modeResolves : ∃ p mode, client.claimGet 1 ns g.pvc = .ok p ∧ p.volumeMode = some mode ∧
    isBlock = decide (mode = PersistentVolumeBlock)

/-- A pod that stays Pending. -/
def podPending : Pod :=
  { name := "libguestfs-tools", ns := testNamespace, status := { phase := PodPending } }

/-- Scenario D: the claim exists with mode Filesystem and is unused, and the
backend never reports Running. -/
def fakeCreateClientNeverRunning : K8sClient :=
  fakeClient [testPVCWithMode PersistentVolumeFilesystem] [] (fun _ => { pod := some podPending }) none

/-- A backend that stores the claim (mode Filesystem) and refuses the pod
create call. -/
def fakeCreateClientCreateFails : K8sClient :=
  { fakeCreateClientPVC (testPVCWithMode PersistentVolumeFilesystem) with
    podCreate := fun _ _ => .error (.failure "pods libguestfs-tools already exists") }

/-- A pod whose phase is Failed. -/
def podFailed : Pod :=
  { name := "libguestfs-tools", ns := testNamespace, status := { phase := "Failed" } }

/-- A backend whose pod gets report the phase Failed. -/
def fakeCreateClientPodFailed : K8sClient :=
  fakeClient [testPVCWithMode PersistentVolumeFilesystem] [] (fun _ => { pod := some podFailed }) none

/-- A backend whose pod gets fail and answer a nil pod with the error, as the
client-go fake does for a failing get. -/
def fakeCreateClientGetFails : K8sClient :=
  fakeClient [testPVCWithMode PersistentVolumeFilesystem] []
    (fun _ => { pod := none, err := some (.failure "connection refused") }) none

/-- A backend whose first pod get reports Running and whose later pod gets
fail and answer a nil pod with the error. -/
def fakeCreateClientGetFailsLater : K8sClient :=
  fakeClient [testPVCWithMode PersistentVolumeFilesystem] []
    (fun i => if i = 0 then { pod := some podRunning }
      else { pod := none, err := some (.failure "connection refused") }) none

/-- A backend whose first pod get fails and answers a non-nil zero pod with the
error, as the typed client does, and whose later pod gets report Running. -/
def fakeCreateClientGetFailsZeroPod : K8sClient :=
  fakeClient [testPVCWithMode PersistentVolumeFilesystem] []
    (fun i => if i = 0 then { pod := some {}, err := some (.failure "connection refused") }
      else { pod := some podRunning }) none

/-- A backend whose pod gets report Pending twice, then Running. -/
def fakeCreateClientSlowStart : K8sClient :=
  fakeClient [testPVCWithMode PersistentVolumeFilesystem] []
    (fun i => if i < 2 then { pod := some podPending } else { pod := some podRunning }) none

/-! ## Theorems -/

/-! ### Lemmas on the scan of `getPodsForPVC` -/

theorem Volume.claims_iff (v : Volume) (pvcName : String) :
    v.claims pvcName = true ↔
      ∃ src, v.persistentVolumeClaim = some src ∧ src.claimName = pvcName := by
  unfold Volume.claims
  cases v.persistentVolumeClaim with
  | none => simp
  | some src => simp

theorem scanVolumes_length_pos (pod : Pod) (pvcName : String) (vols : List Volume)
    (acc : List Pod) :
    0 < (vols.foldl (fun pods v => if v.claims pvcName then pods ++ [pod] else pods) acc).length ↔
      0 < acc.length ∨ ∃ v ∈ vols, v.claims pvcName = true := by
  induction vols generalizing acc with
  | nil => simp
  | cons v rest ih =>
    rw [List.foldl_cons, ih]
    by_cases hv : v.claims pvcName = true
    · simp [hv]
    · simp [hv]

theorem scanPods_length_pos (pvcName : String) (items : List Pod) (acc : List Pod) :
    0 < (items.foldl (fun pods pod =>
        pod.spec.volumes.foldl (fun pods v =>
          if v.claims pvcName then pods ++ [pod] else pods) pods) acc).length ↔
      0 < acc.length ∨ ∃ pod ∈ items, ∃ v ∈ pod.spec.volumes, v.claims pvcName = true := by
  induction items generalizing acc with
  | nil => simp
  | cons pod rest ih =>
    rw [List.foldl_cons, ih, scanVolumes_length_pos]
    simp only [List.mem_cons, exists_eq_or_imp, or_assoc]

/-- With the pod list answered, `isPVCinUse` reports whether some listed pod has
a volume naming the claim. -/
theorem isPVCinUse_of_list (client : K8sClient) (pvc ns : String) (items : List Pod)
    (hlist : client.podList ns = .ok items) :
    client.isPVCinUse pvc ns =
      (decide (∃ pod ∈ items, ∃ v ∈ pod.spec.volumes, v.claims pvc = true), none) := by
  have hpos := scanPods_length_pos pvc items []
  simp only [List.length_nil, lt_self_iff_false, false_or] at hpos
  unfold K8sClient.isPVCinUse K8sClient.getPodsForPVC
  rw [hlist]
  by_cases hex : ∃ pod ∈ items, ∃ v ∈ pod.spec.volumes, v.claims pvc = true
  · simp only [gt_iff_lt, hpos.mpr hex, if_true, hex, decide_True]
  · have hnot := mt hpos.mp hex
    simp only [gt_iff_lt, hnot, if_false, hex, decide_False]

/-! ### Lemmas on the steps of `run` -/

theorem existsPVC_of_claim (client : K8sClient) (nth : Nat) (pvc ns : String)
    (p : PersistentVolumeClaim) (hget : client.claimGet nth ns pvc = .ok p)
    (hname : p.name ≠ "") : client.existsPVC nth pvc ns = (true, none) := by
  simp [K8sClient.existsPVC, hget, hname]

theorem isPVCVolumeBlock_of_mode (client : K8sClient) (nth : Nat) (pvc ns : String)
    (p : PersistentVolumeClaim) (mode : String)
    (hget : client.claimGet nth ns pvc = .ok p) (hmode : p.volumeMode = some mode) :
    client.isPVCVolumeBlock nth pvc ns =
      .returned (decide (mode = PersistentVolumeBlock), none) := by
  unfold K8sClient.isPVCVolumeBlock
  rw [hget]
  simp only [hmode]
  by_cases hb : mode = PersistentVolumeBlock
  · simp [hb]
  · simp [hb]

/-- Once validation passes, `run` is the call of line 135 under the deferred
delete of line 134. -/
theorem run_of_validation (g : Globals) (c : guestfsCommand) (ns : String)
    (client : K8sClient) (isBlock : Bool) (hval : ValidationPasses g c ns client isBlock) :
    run g c =
      client.deferRemovePod g ns [.claimGet ns g.pvc, .podList ns, .claimGet ns g.pvc]
        (client.createInteractivePodWithPVC g g.pvc g.image ns "/bin/bash" [] isBlock) := by
  obtain ⟨hns, ⟨conf, hconf, hclient⟩, ⟨p, hget, hname⟩, ⟨items, hlist, hunused⟩,
    ⟨p2, mode, hget2, hmode, hblock⟩⟩ := hval
  have hex := existsPVC_of_claim client 0 g.pvc ns p hget hname
  have huse : client.isPVCinUse g.pvc ns = (false, none) := by
    rw [isPVCinUse_of_list client g.pvc ns items hlist]
    simp only [Volume.claims_iff]
    have hno : ¬ ∃ pod ∈ items, ∃ v ∈ pod.spec.volumes, ∃ src,
        v.persistentVolumeClaim = some src ∧ src.claimName = g.pvc := by
      rintro ⟨pod, hpod, v, hv, src, hsrc, hclaim⟩
      exact hunused pod hpod v hv src hsrc hclaim
    simp [hno]
  have hblk := isPVCVolumeBlock_of_mode client 1 g.pvc ns p2 mode hget2 hmode
  rw [← hblock] at hblk
  simp [run, hns, hconf, hclient, hex, huse, hblk]

theorem pollOn_idle (client : K8sClient) (pod ns : String) (n : Nat) :
    client.pollOn pod ns n .idle = (.idle, 0) := by
  cases n <;> rfl

theorem createInteractivePodWithPVC_of_refused (client : K8sClient) (g : Globals)
    (pvc image ns command : String) (args : List String) (isblock : Bool) (err : GoError)
    (hcreate : client.podCreate ns (createLibguestfsPod pvc image command args true isblock) =
      .error err) :
    client.createInteractivePodWithPVC g pvc image ns command args isblock =
      ⟨.returned (some err),
        [.podCreate ns (createLibguestfsPod pvc image command args true isblock)], .idle⟩ := by
  simp only [K8sClient.createInteractivePodWithPVC, hcreate]

theorem deferRemovePod_of_idle (client : K8sClient) (g : Globals) (ns : String)
    (log calls : List Event) (ret : Option GoError) :
    client.deferRemovePod g ns log ⟨.returned ret, calls, .idle⟩ =
      ⟨.returned ret, log ++ calls ++ [.podDelete ns podName]⟩ := by
  simp [K8sClient.deferRemovePod, K8sClient.removePod, pollOn_idle]

/-! ### Lemmas on the readiness poll -/

theorem poll_skip (client : K8sClient) (pod ns : String) (m : Nat) :
    ∀ k i, (∀ j, j < k → (client.podGet (i + j) ns pod).err = none ∧
        ∃ p, (client.podGet (i + j) ns pod).pod = some p ∧ p.status.phase = PodPending) →
      client.poll pod ns i (k + m) = client.poll pod ns (i + k) m := by
  intro k
  induction k with
  | zero => intro i _; simp
  | succ k ih =>
    intro i hquiet
    obtain ⟨herr, p, hpod, hphase⟩ := hquiet 0 (Nat.succ_pos k)
    rw [Nat.add_zero] at herr hpod
    have hstep : client.poll pod ns i (k + m + 1) = client.poll pod ns (i + 1) (k + m) := by
      simp only [K8sClient.poll, herr, hpod, hphase, ne_eq, not_true_eq_false, if_false]
    rw [show k + 1 + m = k + m + 1 by omega, hstep, ih (i + 1) (fun j hj => by
      have := hquiet (j + 1) (Nat.succ_lt_succ hj)
      rwa [show i + (j + 1) = i + 1 + j by omega] at this)]
    rw [show i + 1 + k = i + (k + 1) by omega]

theorem poll_timedOut (client : K8sClient) (pod ns : String) (n : Nat)
    (hquiet : ∀ j, j < n → (client.podGet j ns pod).err = none ∧
        ∃ p, (client.podGet j ns pod).pod = some p ∧ p.status.phase = PodPending) :
    client.poll pod ns 0 n = .timedOut n := by
  have h := poll_skip client pod ns 0 n 0 (fun j hj => by rw [Nat.zero_add]; exact hquiet j hj)
  rw [Nat.add_zero, Nat.zero_add] at h
  rw [h]
  rfl

theorem poll_fetch_error (client : K8sClient) (pod ns : String) (n k : Nat) (hk : k < n)
    (hquiet : ∀ j, j < k → (client.podGet j ns pod).err = none ∧
        ∃ p, (client.podGet j ns pod).pod = some p ∧ p.status.phase = PodPending)
    (err : GoError) (p : Pod) (herr : (client.podGet k ns pod).err = some err)
    (hpod : (client.podGet k ns pod).pod = some p) :
    client.poll pod ns 0 n = .received err.Error (k + 1) (p.status.phase == PodPending) := by
  obtain ⟨m, rfl⟩ : ∃ m, n = k + (m + 1) := ⟨n - k - 1, by omega⟩
  rw [poll_skip client pod ns (m + 1) k 0 (fun j hj => by rw [Nat.zero_add]; exact hquiet j hj),
    Nat.zero_add]
  simp only [K8sClient.poll, herr, hpod]

theorem poll_phase (client : K8sClient) (pod ns : String) (n k : Nat) (hk : k < n)
    (hquiet : ∀ j, j < k → (client.podGet j ns pod).err = none ∧
        ∃ p, (client.podGet j ns pod).pod = some p ∧ p.status.phase = PodPending)
    (p : Pod) (herr : (client.podGet k ns pod).err = none)
    (hpod : (client.podGet k ns pod).pod = some p) (hphase : p.status.phase ≠ PodPending) :
    client.poll pod ns 0 n = .received p.status.phase (k + 1) true := by
  obtain ⟨m, rfl⟩ : ∃ m, n = k + (m + 1) := ⟨n - k - 1, by omega⟩
  rw [poll_skip client pod ns (m + 1) k 0 (fun j hj => by rw [Nat.zero_add]; exact hquiet j hj),
    Nat.zero_add]
  simp only [K8sClient.poll, herr, hpod, hphase, ne_eq, not_false_eq_true, if_true]

theorem poll_nil_pod (client : K8sClient) (pod ns : String) (n k : Nat) (hk : k < n)
    (hquiet : ∀ j, j < k → (client.podGet j ns pod).err = none ∧
        ∃ p, (client.podGet j ns pod).pod = some p ∧ p.status.phase = PodPending)
    (hpod : (client.podGet k ns pod).pod = none) :
    client.poll pod ns 0 n = .panicked (k + 1) := by
  obtain ⟨m, rfl⟩ : ∃ m, n = k + (m + 1) := ⟨n - k - 1, by omega⟩
  rw [poll_skip client pod ns (m + 1) k 0 (fun j hj => by rw [Nat.zero_add]; exact hquiet j hj),
    Nat.zero_add]
  simp only [K8sClient.poll, hpod]

theorem poll_not_panicked (client : K8sClient) (pod ns : String) (n : Nat) :
    ∀ i, (∀ j, j < n → (client.podGet (i + j) ns pod).pod ≠ none) →
      ∀ gets, client.poll pod ns i n ≠ .panicked gets := by
  induction n with
  | zero => intro i _ gets h; simp [K8sClient.poll] at h
  | succ n ih =>
    intro i hpods gets
    have h0 := hpods 0 (Nat.succ_pos n)
    rw [Nat.add_zero] at h0
    obtain ⟨p, hp⟩ := Option.ne_none_iff_exists'.mp h0
    have hrest := ih (i + 1) (fun j hj => by
      have := hpods (j + 1) (Nat.succ_lt_succ hj)
      rwa [show i + (j + 1) = i + 1 + j by omega] at this) gets
    cases herr : (client.podGet i ns pod).err with
    | some err => simp [K8sClient.poll, herr, hp]
    | none =>
      by_cases hphase : p.status.phase = PodPending
      · simpa [K8sClient.poll, herr, hp, hphase] using hrest
      · simp [K8sClient.poll, herr, hp, hphase]

theorem pollStep_not_panicked (a : PodGetAnswer) (i : Nat) (room : Bool)
    (hpod : a.pod ≠ none) : pollStep a i room ≠ .panicked := by
  obtain ⟨p, hp⟩ := Option.ne_none_iff_exists'.mp hpod
  unfold pollStep
  cases a.err <;> cases room <;> simp [hp] <;> split <;> simp

theorem pollOn_not_panicked (client : K8sClient) (pod ns : String)
    (hpods : ∀ i, (client.podGet i ns pod).pod ≠ none) (n : Nat) :
    ∀ poller, poller ≠ .panicked → (client.pollOn pod ns n poller).1 ≠ .panicked := by
  induction n with
  | zero => intro poller h; cases poller <;> simp_all [K8sClient.pollOn]
  | succ n ih =>
    intro poller h
    cases poller with
    | idle => simp [K8sClient.pollOn]
    | blocked => simp [K8sClient.pollOn]
    | panicked => exact absurd rfl h
    | polling i room =>
      simp only [K8sClient.pollOn]
      exact ih _ (pollStep_not_panicked _ i room (hpods i))

/-! ### The session when no pod get answers a nil pod -/

theorem waited_poller_not_panicked (w : Waited) (h : ∀ gets, w ≠ .panicked gets) :
    w.poller ≠ .panicked := by
  cases w with
  | received res gets room => simp [Waited.poller]
  | timedOut gets => simp [Waited.poller]
  | panicked gets => exact absurd rfl (h gets)

theorem waitForContainerRunning_returns (client : K8sClient) (pod cont ns : String)
    (timeout : Nat) (h : ∀ gets, client.poll pod ns 0 timeout ≠ .panicked gets) :
    ∃ w, client.waitForContainerRunning pod cont ns timeout = .returned w := by
  unfold K8sClient.waitForContainerRunning
  cases hp : client.poll pod ns 0 timeout with
  | received res gets room =>
    by_cases hres : res = PodRunning
    · exact ⟨none, by simp [hres]⟩
    · exact ⟨some (.errorf ("Pod is not in running state but got " ++ res)),
        by simp only [hres, if_false]⟩
  | timedOut gets => exact ⟨_, rfl⟩
  | panicked gets => exact absurd hp (h gets)

theorem countP_isDelete_podGets (ns name : String) (n : Nat) :
    (List.replicate n (Event.podGet ns name)).countP Event.isDelete = 0 := by
  induction n with
  | zero => rfl
  | succ n ih => simp [List.replicate_succ, List.countP_cons, Event.isDelete, ih]

theorem not_isDelete_of_mem_podGets (ns name : String) (n : Nat) (e : Event)
    (he : e ∈ List.replicate n (Event.podGet ns name)) : e.isDelete = false := by
  rw [List.eq_of_mem_replicate he]
  rfl

theorem deferRemovePod_of_returned (client : K8sClient) (g : Globals) (ns : String)
    (hpods : ∀ i, (client.podGet i ns podName).pod ≠ none) (log : List Event)
    (s : SessionCalls) (ret : Option GoError) (hret : s.ret = .returned ret)
    (hpoller : s.poller ≠ .panicked) :
    client.deferRemovePod g ns log s =
      ⟨.returned ret, log ++ s.calls ++ [.podDelete ns podName] ++
        List.replicate (client.pollOn podName ns g.pollsDuringDelete s.poller).2
          (Event.podGet ns podName)⟩ := by
  have hnp := pollOn_not_panicked client podName ns hpods g.pollsDuringDelete s.poller hpoller
  unfold K8sClient.deferRemovePod
  rw [hret]
  simp only [K8sClient.removePod]

/-- The call of line 135 on a session whose pod create call succeeds and whose
pod gets never answer a nil pod. -/
theorem createInteractivePodWithPVC_of_answered (client : K8sClient) (g : Globals)
    (pvc image ns command : String) (args : List String) (isblock : Bool) (created : Pod)
    (hcreate : client.podCreate ns (createLibguestfsPod pvc image command args true isblock) =
      .ok created)
    (hpods : ∀ i, (client.podGet i ns podName).pod ≠ none) :
    ∃ w, client.waitForContainerRunning podName contName ns g.timeout = .returned w ∧
      (client.createInteractivePodWithPVC g pvc image ns command args isblock).ret =
        .returned (match w with
          | some err => some err
          | none => g.createAttachFunc created command) ∧
      (client.createInteractivePodWithPVC g pvc image ns command args isblock).poller ≠
        .panicked ∧
      ∃ before during,
        (client.createInteractivePodWithPVC g pvc image ns command args isblock).calls =
          [.podCreate ns (createLibguestfsPod pvc image command args true isblock)] ++
            List.replicate before (Event.podGet ns podName) ++ [.waitReturned w] ++
            (match w with
              | some _ => []
              | none => .attach created command ::
                  List.replicate during (Event.podGet ns podName)) := by
  have hpoll : ∀ gets, client.poll podName ns 0 g.timeout ≠ .panicked gets :=
    poll_not_panicked client podName ns g.timeout 0 (fun j _ => hpods (0 + j))
  obtain ⟨w, hw⟩ := waitForContainerRunning_returns client podName contName ns g.timeout hpoll
  have hwp := waited_poller_not_panicked _ hpoll
  refine ⟨w, hw, ?_⟩
  cases w with
  | some err =>
    simp only [K8sClient.createInteractivePodWithPVC, hcreate, hw]
    exact ⟨trivial, hwp, (client.poll podName ns 0 g.timeout).gets, 0, by simp⟩
  | none =>
    have hnp := pollOn_not_panicked client podName ns hpods g.pollsDuringAttach _ hwp
    simp only [K8sClient.createInteractivePodWithPVC, hcreate, hw]
    exact ⟨trivial, hnp, (client.poll podName ns 0 g.timeout).gets,
      (client.pollOn podName ns g.pollsDuringAttach
        (client.poll podName ns 0 g.timeout).poller).2, by simp⟩

/-- On a session where validation passes, the pod create call succeeds and no
pod get answers a nil pod: `run` returns the error of the readiness wait, or
else what the attach call returned; it issues exactly one pod delete call,
after the readiness wait has returned and after the attach call, and only pod
gets of the polling goroutine follow it. -/
theorem run_session_of_answered_pod_gets (g : Globals) (c : guestfsCommand) (ns : String)
    (client : K8sClient) (isBlock : Bool) (created : Pod)
    (hval : ValidationPasses g c ns client isBlock)
    (hcreate : client.podCreate ns
      (createLibguestfsPod g.pvc g.image "/bin/bash" [] true isBlock) = .ok created)
    (hpods : ∀ i, (client.podGet i ns podName).pod ≠ none) :
    ∃ w, client.waitForContainerRunning podName contName ns g.timeout = .returned w ∧
      (run g c).outcome = .returned (match w with
        | some err => some err
        | none => g.createAttachFunc created "/bin/bash") ∧
      (run g c).log.countP Event.isDelete = 1 ∧
      ∃ pre n, (run g c).log =
          pre ++ [.podDelete ns podName] ++ List.replicate n (Event.podGet ns podName) ∧
        (∀ e ∈ pre, e.isDelete = false) ∧ .waitReturned w ∈ pre ∧
        (w = none → .attach created "/bin/bash" ∈ pre) := by
  obtain ⟨w, hw, hret, hpoller, before, during, hcalls⟩ :=
    createInteractivePodWithPVC_of_answered client g g.pvc g.image ns "/bin/bash" [] isBlock
      created hcreate hpods
  have hrun := run_of_validation g c ns client isBlock hval
  rw [deferRemovePod_of_returned client g ns hpods _ _ _ hret hpoller] at hrun
  have hpre : ∀ e ∈ [Event.claimGet ns g.pvc, .podList ns, .claimGet ns g.pvc] ++
      (client.createInteractivePodWithPVC g g.pvc g.image ns "/bin/bash" [] isBlock).calls,
      e.isDelete = false := by
    intro e he
    rw [hcalls] at he
    cases w with
    | some err =>
      simp only [List.append_nil, List.mem_append, List.mem_cons, List.mem_singleton,
        List.not_mem_nil, or_false] at he
      rcases he with (he | he | he) | (he | he) | he
      · subst he; rfl
      · subst he; rfl
      · subst he; rfl
      · subst he; rfl
      · exact not_isDelete_of_mem_podGets _ _ _ _ he
      · subst he; rfl
    | none =>
      simp only [List.mem_append, List.mem_cons, List.mem_singleton,
        List.not_mem_nil, or_false] at he
      rcases he with (he | he | he) | ((he | he) | he) | (he | he)
      · subst he; rfl
      · subst he; rfl
      · subst he; rfl
      · subst he; rfl
      · exact not_isDelete_of_mem_podGets _ _ _ _ he
      · subst he; rfl
      · subst he; rfl
      · exact not_isDelete_of_mem_podGets _ _ _ _ he
  refine ⟨w, hw, by rw [hrun], ?_, _, _, by rw [hrun], hpre, ?_, ?_⟩
  · have h0 : ([Event.claimGet ns g.pvc, .podList ns, .claimGet ns g.pvc] ++
        (client.createInteractivePodWithPVC g g.pvc g.image ns "/bin/bash" [] isBlock).calls).countP
        Event.isDelete = 0 :=
      List.countP_eq_zero.mpr (fun e he => by simp [hpre e he])
    rw [hrun]
    show List.countP Event.isDelete (_ ++ [Event.podDelete ns podName] ++ _) = 1
    rw [List.countP_append, List.countP_append, h0, countP_isDelete_podGets]
    rfl
  · rw [hcalls]
    simp
  · intro hnone
    subst hnone
    rw [hcalls]
    simp

/-! ### The claims -/

/-- C4: for every claim name, image, command, argument list and kvm flag, the
pod built with `isBlock = true` has a single container with exactly one
volume-device entry (volume "volume" at "/dev/vda"), no volume mount and an
empty working directory; the pod built with `isBlock = false` has a single
container with exactly one volume mount (volume "volume" at "/disks"), no
volume-device entry and working directory "/disks". -/
theorem createLibguestfsPod_volume_shape (pvc image cmd : String) (args : List String)
    (kvm : Bool) :
    (∃ c0, (createLibguestfsPod pvc image cmd args kvm true).spec.containers = [c0] ∧
        c0.volumeDevices = [ { name := "volume", devicePath := "/dev/vda" } ] ∧
        c0.volumeMounts = [] ∧ c0.workingDir = "") ∧
    (∃ c0, (createLibguestfsPod pvc image cmd args kvm false).spec.containers = [c0] ∧
        c0.volumeMounts = [ { name := "volume", readOnly := false, mountPath := "/disks" } ] ∧
        c0.volumeDevices = [] ∧ c0.workingDir = "/disks") := by
  refine ⟨⟨_, rfl, rfl, rfl, rfl⟩, ⟨_, rfl, rfl, rfl, rfl⟩⟩

/-- C2: when the namespace, the configuration and the client are obtained and
the claim does not exist (the first claim get answers anything but a named
claim: a not-found error, another failure, or an object without a name), `run`
returns an error whose message is exactly "The PVC <name> doesn't exist", and
it issues no pod create call and no pod delete call (its only call is the
claim get). -/
theorem run_claim_missing (g : Globals) (c : guestfsCommand) (ns : String)
    (conf : RestConfig) (client : K8sClient)
    (hns : c.clientConfig.Namespace = .ok ns)
    (hconf : c.clientConfig.ClientConfig = .ok conf)
    (hclient : g.createClientFunc conf = .ok client)
    (habsent : ∀ p, client.claimGet 0 ns g.pvc = .ok p → p.name = "") :
    (∃ err, (run g c).outcome = .returned (some err) ∧
        err.Error = "The PVC " ++ g.pvc ++ " doesn't exist") ∧
    (run g c).log = [.claimGet ns g.pvc] ∧
    ∀ e ∈ (run g c).log, e.isCreate = false ∧ e.isDelete = false := by
  have hex : (client.existsPVC 0 g.pvc ns).1 = false := by
    unfold K8sClient.existsPVC
    cases hget : client.claimGet 0 ns g.pvc with
    | error err => rfl
    | ok p => simp [habsent p hget]
  have hrun : run g c =
      ⟨.returned (some (.errorf ("The PVC " ++ g.pvc ++ " doesn't exist"))),
        [.claimGet ns g.pvc]⟩ := by
    simp [run, hns, hconf, hclient, hex]
  rw [hrun]
  refine ⟨⟨_, rfl, rfl⟩, rfl, ?_⟩
  intro e he
  simp at he
  subst he
  exact ⟨rfl, rfl⟩

/-- Witness of C2 on the test "PVC doesn't exist": the fake client stores no
claim. -/
theorem run_claim_missing_witness :
    (∃ err, (run (testGlobals fakeCreateClient) testConfig).outcome = .returned (some err) ∧
        err.Error = "The PVC test-pvc doesn't exist") ∧
    (run (testGlobals fakeCreateClient) testConfig).log = [.claimGet "default" "test-pvc"] ∧
    ∀ e ∈ (run (testGlobals fakeCreateClient) testConfig).log,
      e.isCreate = false ∧ e.isDelete = false :=
  run_claim_missing (testGlobals fakeCreateClient) testConfig "default" {} fakeCreateClient
    rfl rfl rfl (by intro p h; simp [fakeCreateClient, fakeClient] at h)

/-- C10: for every claim name, when the pod list of the namespace is answered,
`isPVCinUse` returns true exactly when at least one listed pod has a volume
whose persistent-volume-claim source names that claim, and false otherwise,
both without error; when listing the pods fails it returns that error. -/
theorem isPVCinUse_spec (client : K8sClient) (pvc ns : String) :
    (∀ items, client.podList ns = .ok items →
      (client.isPVCinUse pvc ns = (true, none) ↔
        ∃ pod ∈ items, ∃ v ∈ pod.spec.volumes, ∃ src,
          v.persistentVolumeClaim = some src ∧ src.claimName = pvc) ∧
      (client.isPVCinUse pvc ns = (false, none) ↔
        ¬ ∃ pod ∈ items, ∃ v ∈ pod.spec.volumes, ∃ src,
          v.persistentVolumeClaim = some src ∧ src.claimName = pvc)) ∧
    (∀ err, client.podList ns = .error err →
      client.isPVCinUse pvc ns = (false, some err)) := by
  refine ⟨fun items hlist => ?_, fun err herr => ?_⟩
  · rw [isPVCinUse_of_list client pvc ns items hlist]
    simp only [Volume.claims_iff]
    constructor
    · simp
    · simp
  · simp [K8sClient.isPVCinUse, K8sClient.getPodsForPVC, herr]

/-- Witness of C10 on the two pod lists of the test file: the list holding
`otherPod`, which names "test-pvc", and the empty list; and on a failing list. -/
theorem isPVCinUse_spec_witness :
    fakeCreateClientPVCinUse.isPVCinUse "test-pvc" "default" = (true, none) ∧
    fakeCreateClientPVCinUse.isPVCinUse "another-pvc" "default" = (false, none) ∧
    (fakeCreateClientPVC testPVC).isPVCinUse "test-pvc" "default" = (false, none) ∧
    ({ fakeCreateClient with podList := fun _ => .error (.failure "connection refused") }
        : K8sClient).isPVCinUse "test-pvc" "default" = (false, some (.failure "connection refused")) := by
  refine ⟨?_, ?_, ?_, ?_⟩
  · exact ((isPVCinUse_spec fakeCreateClientPVCinUse "test-pvc" "default").1 [otherPod] rfl).1.mpr
      ⟨otherPod, by simp, _, List.mem_singleton.mpr rfl, _, rfl, rfl⟩
  · exact ((isPVCinUse_spec fakeCreateClientPVCinUse "another-pvc" "default").1 [otherPod] rfl).2.mpr
      (by simp [otherPod, pvcName])
  · exact ((isPVCinUse_spec (fakeCreateClientPVC testPVC) "test-pvc" "default").1 [] rfl).2.mpr
      (by simp)
  · exact (isPVCinUse_spec _ "test-pvc" "default").2 _ rfl

/-- C3: when the namespace, the configuration and the client are obtained, the
claim exists (the first claim get answers a named claim) and some pod of the
namespace has, in the pod list answered at validation time, a volume whose
claim source names it, `run` returns an error whose message is exactly
"PVC <name> is used by another pod", and it issues no pod create call and no
pod delete call (its only calls are the claim get and the pod list). -/
theorem run_claim_in_use (g : Globals) (c : guestfsCommand) (ns : String)
    (conf : RestConfig) (client : K8sClient) (p : PersistentVolumeClaim) (items : List Pod)
    (hns : c.clientConfig.Namespace = .ok ns)
    (hconf : c.clientConfig.ClientConfig = .ok conf)
    (hclient : g.createClientFunc conf = .ok client)
    (hget : client.claimGet 0 ns g.pvc = .ok p) (hname : p.name ≠ "")
    (hlist : client.podList ns = .ok items)
    (hused : ∃ pod ∈ items, ∃ v ∈ pod.spec.volumes, ∃ src,
      v.persistentVolumeClaim = some src ∧ src.claimName = g.pvc) :
    (∃ err, (run g c).outcome = .returned (some err) ∧
        err.Error = "PVC " ++ g.pvc ++ " is used by another pod") ∧
    (run g c).log = [.claimGet ns g.pvc, .podList ns] ∧
    ∀ e ∈ (run g c).log, e.isCreate = false ∧ e.isDelete = false := by
  have hex := existsPVC_of_claim client 0 g.pvc ns p hget hname
  have huse : client.isPVCinUse g.pvc ns = (true, none) := by
    rw [isPVCinUse_of_list client g.pvc ns items hlist]
    simp only [Volume.claims_iff]
    simp [hused]
  have hrun : run g c =
      ⟨.returned (some (.errorf ("PVC " ++ g.pvc ++ " is used by another pod"))),
        [.claimGet ns g.pvc, .podList ns]⟩ := by
    simp [run, hns, hconf, hclient, hex, huse]
  rw [hrun]
  refine ⟨⟨_, rfl, rfl⟩, rfl, ?_⟩
  intro e he
  simp at he
  rcases he with he | he <;> subst he <;> exact ⟨rfl, rfl⟩

/-- Witness of C3 on the test "PVC in use": the fake client stores the claim
and `otherPod`, whose volume names it. -/
theorem run_claim_in_use_witness :
    (∃ err, (run (testGlobals fakeCreateClientPVCinUse) testConfig).outcome =
          .returned (some err) ∧
        err.Error = "PVC test-pvc is used by another pod") ∧
    (run (testGlobals fakeCreateClientPVCinUse) testConfig).log =
      [.claimGet "default" "test-pvc", .podList "default"] ∧
    ∀ e ∈ (run (testGlobals fakeCreateClientPVCinUse) testConfig).log,
      e.isCreate = false ∧ e.isDelete = false :=
  run_claim_in_use (testGlobals fakeCreateClientPVCinUse) testConfig "default" {}
    fakeCreateClientPVCinUse testPVC [otherPod] rfl rfl rfl rfl (by decide) rfl
    ⟨otherPod, List.mem_singleton.mpr rfl, _, List.mem_singleton.mpr rfl, _, rfl, rfl⟩

/-- C1, the code at the failing input.  The claim exists with mode Filesystem,
is unused, and the pod create call succeeds.  When the first pod get fails and
answers a nil pod, the polling goroutine dereferences it at line 216 and the
process ends: the calls of `run` stop at that pod get and no pod delete call
is issued.  When the first pod get reports Running and the second, issued
while the attach call blocks, fails and answers a nil pod, the process ends
during the attach call, again without a pod delete call. -/
theorem run_poll_panic_issues_no_delete :
    ValidationPasses (testGlobals fakeCreateClientGetFails) testConfig "default"
      fakeCreateClientGetFails false ∧
    fakeCreateClientGetFails.podCreate "default"
      (createLibguestfsPod "test-pvc" "docker.io/afrosirh/libguestfs-tools:latest"
        "/bin/bash" [] true false) =
      .ok { createLibguestfsPod "test-pvc" "docker.io/afrosirh/libguestfs-tools:latest"
          "/bin/bash" [] true false with ns := "default" } ∧
    fakeCreateClientGetFails.podGet 0 "default" "libguestfs-tools" =
      { pod := none, err := some (.failure "connection refused") } ∧
    (run (testGlobals fakeCreateClientGetFails) testConfig).log =
      [.claimGet "default" "test-pvc", .podList "default", .claimGet "default" "test-pvc",
        .podCreate "default" (createLibguestfsPod "test-pvc"
          "docker.io/afrosirh/libguestfs-tools:latest" "/bin/bash" [] true false),
        .podGet "default" "libguestfs-tools"] ∧
    (run (testGlobals fakeCreateClientGetFails) testConfig).log.countP Event.isDelete = 0 ∧
    ValidationPasses (interactiveGlobals fakeCreateClientGetFailsLater) testConfig "default"
      fakeCreateClientGetFailsLater false ∧
    (run (interactiveGlobals fakeCreateClientGetFailsLater) testConfig).log =
      [.claimGet "default" "test-pvc", .podList "default", .claimGet "default" "test-pvc",
        .podCreate "default" (createLibguestfsPod "test-pvc"
          "docker.io/afrosirh/libguestfs-tools:latest" "/bin/bash" [] true false),
        .podGet "default" "libguestfs-tools", .waitReturned none,
        .attach { createLibguestfsPod "test-pvc" "docker.io/afrosirh/libguestfs-tools:latest"
          "/bin/bash" [] true false with ns := "default" } "/bin/bash",
        .podGet "default" "libguestfs-tools"] ∧
    (run (interactiveGlobals fakeCreateClientGetFailsLater) testConfig).log.countP
      Event.isDelete = 0 := by
  refine ⟨?_, rfl, rfl, rfl, rfl, ?_, rfl, rfl⟩
  · exact ⟨rfl, ⟨{}, rfl, rfl⟩, ⟨testPVCWithMode PersistentVolumeFilesystem, rfl, by decide⟩,
      ⟨[], rfl, by simp⟩, ⟨testPVCWithMode PersistentVolumeFilesystem,
        PersistentVolumeFilesystem, rfl, rfl, by decide⟩⟩
  · exact ⟨rfl, ⟨{}, rfl, rfl⟩, ⟨testPVCWithMode PersistentVolumeFilesystem, rfl, by decide⟩,
      ⟨[], rfl, by simp⟩, ⟨testPVCWithMode PersistentVolumeFilesystem,
        PersistentVolumeFilesystem, rfl, rfl, by decide⟩⟩

/-- C6, the code at the failing input.  Validation passes and the pod create
call succeeds.  When the first pod get fails and answers a nil pod,
`waitForContainerRunning` does not return: the polling goroutine dereferences
the nil pod at line 216, the process ends, and `run` returns neither the error
of the wait nor anything else.  When the first pod get reports Running, the
wait returns nil and the attach function would return nil, but the second pod
get, issued while the attach call blocks, fails and answers a nil pod: the
process ends and `run` does not return what the attach call returned. -/
theorem run_poll_panic_returns_nothing :
    ValidationPasses (testGlobals fakeCreateClientGetFails) testConfig "default"
      fakeCreateClientGetFails false ∧
    fakeCreateClientGetFails.podCreate "default"
      (createLibguestfsPod "test-pvc" "docker.io/afrosirh/libguestfs-tools:latest"
        "/bin/bash" [] true false) =
      .ok { createLibguestfsPod "test-pvc" "docker.io/afrosirh/libguestfs-tools:latest"
          "/bin/bash" [] true false with ns := "default" } ∧
    fakeCreateClientGetFails.waitForContainerRunning "libguestfs-tools" "virt" "default" 20000 =
      .nilDereference ∧
    (run (testGlobals fakeCreateClientGetFails) testConfig).outcome = .nilDereference ∧
    (∀ ret, (run (testGlobals fakeCreateClientGetFails) testConfig).outcome ≠ .returned ret) ∧
    fakeCreateClientGetFailsLater.waitForContainerRunning "libguestfs-tools" "virt" "default"
      20000 = .returned none ∧
    fakeCreateAttacher { createLibguestfsPod "test-pvc" "docker.io/afrosirh/libguestfs-tools:latest"
          "/bin/bash" [] true false with ns := "default" } "/bin/bash" = none ∧
    (fakeCreateClientGetFailsLater.podGet 1 "default" "libguestfs-tools").pod = none ∧
    (run (interactiveGlobals fakeCreateClientGetFailsLater) testConfig).outcome =
      .nilDereference := by
  refine ⟨?_, rfl, rfl, rfl, ?_, rfl, rfl, rfl, rfl⟩
  · exact ⟨rfl, ⟨{}, rfl, rfl⟩, ⟨testPVCWithMode PersistentVolumeFilesystem, rfl, by decide⟩,
      ⟨[], rfl, by simp⟩, ⟨testPVCWithMode PersistentVolumeFilesystem,
        PersistentVolumeFilesystem, rfl, rfl, by decide⟩⟩
  · intro ret h
    have hout : (run (testGlobals fakeCreateClientGetFails) testConfig).outcome =
        .nilDereference := rfl
    rw [hout] at h
    cases h

/-- The claim C7 fails where the create call is refused: validation passes, the
create call fails, `run` returns that error, and the log still ends with a pod
delete call. -/
theorem refused_create_still_issues_delete :
    ValidationPasses (testGlobals fakeCreateClientCreateFails) testConfig "default"
      fakeCreateClientCreateFails false ∧
    fakeCreateClientCreateFails.podCreate "default"
      (createLibguestfsPod "test-pvc" "docker.io/afrosirh/libguestfs-tools:latest"
        "/bin/bash" [] true false) = .error (.failure "pods libguestfs-tools already exists") ∧
    (run (testGlobals fakeCreateClientCreateFails) testConfig).outcome =
      .returned (some (.failure "pods libguestfs-tools already exists")) ∧
    Event.podDelete "default" "libguestfs-tools" ∈
      (run (testGlobals fakeCreateClientCreateFails) testConfig).log ∧
    ¬ ∀ e ∈ (run (testGlobals fakeCreateClientCreateFails) testConfig).log,
      e.isDelete = false := by
  have hval : ValidationPasses (testGlobals fakeCreateClientCreateFails) testConfig "default"
      fakeCreateClientCreateFails false :=
    ⟨rfl, ⟨{}, rfl, rfl⟩, ⟨testPVCWithMode PersistentVolumeFilesystem, rfl, by decide⟩,
      ⟨[], rfl, by simp⟩, ⟨testPVCWithMode PersistentVolumeFilesystem, PersistentVolumeFilesystem,
        rfl, rfl, by decide⟩⟩
  have hlog : (run (testGlobals fakeCreateClientCreateFails) testConfig).log =
      [.claimGet "default" "test-pvc", .podList "default", .claimGet "default" "test-pvc",
        .podCreate "default" (createLibguestfsPod "test-pvc"
          "docker.io/afrosirh/libguestfs-tools:latest" "/bin/bash" [] true false),
        .podDelete "default" "libguestfs-tools"] := by
    rw [run_of_validation _ _ _ _ _ hval]
    rfl
  refine ⟨hval, rfl, ?_, ?_, ?_⟩
  · rw [run_of_validation _ _ _ _ _ hval]
    rfl
  · rw [hlog]
    simp
  · rw [hlog]
    intro h
    have := h (.podDelete "default" "libguestfs-tools") (by simp)
    simp [Event.isDelete] at this

/-- C7, amended: when validation passes but the pod create call fails, `run`
returns that create error unmodified and invokes neither the readiness wait
nor the attach call; the deferred cleanup still runs, so that exactly one pod
delete call (pod "libguestfs-tools", namespace of the session) is issued, after
the failed create call. -/
theorem run_create_failure (g : Globals) (c : guestfsCommand) (ns : String)
    (client : K8sClient) (isBlock : Bool) (err : GoError)
    (hval : ValidationPasses g c ns client isBlock)
    (hcreate : client.podCreate ns
      (createLibguestfsPod g.pvc g.image "/bin/bash" [] true isBlock) = .error err) :
    (run g c).outcome = .returned (some err) ∧
    (∀ e ∈ (run g c).log, e.isWaitReturned = false ∧ e.isAttach = false) ∧
    (run g c).log.countP Event.isDelete = 1 ∧
    (run g c).log =
      [.claimGet ns g.pvc, .podList ns, .claimGet ns g.pvc,
        .podCreate ns (createLibguestfsPod g.pvc g.image "/bin/bash" [] true isBlock),
        .podDelete ns "libguestfs-tools"] := by
  rw [run_of_validation g c ns client isBlock hval,
    createInteractivePodWithPVC_of_refused client g _ _ ns _ _ isBlock err hcreate,
    deferRemovePod_of_idle]
  refine ⟨rfl, ?_, by simp [List.countP_cons, Event.isDelete], rfl⟩
  intro e he
  simp at he
  rcases he with he | he | he | he | he <;> subst he <;> exact ⟨rfl, rfl⟩

/-- Witness of the amended C7 on a backend that refuses the create call. -/
theorem run_create_failure_witness :
    (run (testGlobals fakeCreateClientCreateFails) testConfig).outcome =
      .returned (some (.failure "pods libguestfs-tools already exists")) ∧
    (∀ e ∈ (run (testGlobals fakeCreateClientCreateFails) testConfig).log,
      e.isWaitReturned = false ∧ e.isAttach = false) ∧
    (run (testGlobals fakeCreateClientCreateFails) testConfig).log.countP Event.isDelete = 1 ∧
    (run (testGlobals fakeCreateClientCreateFails) testConfig).log =
      [.claimGet "default" "test-pvc", .podList "default", .claimGet "default" "test-pvc",
        .podCreate "default" (createLibguestfsPod "test-pvc"
          "docker.io/afrosirh/libguestfs-tools:latest" "/bin/bash" [] true false),
        .podDelete "default" "libguestfs-tools"] :=
  run_create_failure (testGlobals fakeCreateClientCreateFails) testConfig "default"
    fakeCreateClientCreateFails false (.failure "pods libguestfs-tools already exists")
    ⟨rfl, ⟨{}, rfl, rfl⟩, ⟨testPVCWithMode PersistentVolumeFilesystem, rfl, by decide⟩,
      ⟨[], rfl, by simp⟩, ⟨testPVCWithMode PersistentVolumeFilesystem, PersistentVolumeFilesystem,
        rfl, rfl, by decide⟩⟩
    rfl

/-- The claim C8 fails on an absent claim: the platform answers the get of a
claim that is not stored with a not-found error, and `existsPVC` hands that
error back instead of (false, nil). -/
theorem existsPVC_absent_claim_returns_error :
    fakeCreateClient.claimGet 0 "default" "test-pvc" =
      .error (.notFound "persistentvolumeclaims test-pvc not found") ∧
    fakeCreateClient.existsPVC 0 "test-pvc" "default" =
      (false, some (.notFound "persistentvolumeclaims test-pvc not found")) ∧
    fakeCreateClient.existsPVC 0 "test-pvc" "default" ≠ (false, none) := by
  refine ⟨rfl, rfl, ?_⟩
  intro h
  have h2 := congrArg Prod.snd h
  simp [K8sClient.existsPVC, fakeCreateClient, fakeClient] at h2

/-- C8, amended: `existsPVC` returns (true, nil) when the get returns a claim
with a name; it returns (false, nil) when the get succeeds with an object
whose name is empty; and whenever the get fails, it returns false together
with the error of the get, unmodified, the not-found answer for an absent
claim included. -/
theorem existsPVC_spec (client : K8sClient) (nth : Nat) (pvc ns : String) :
    (∀ p, client.claimGet nth ns pvc = .ok p → p.name ≠ "" →
      client.existsPVC nth pvc ns = (true, none)) ∧
    (∀ p, client.claimGet nth ns pvc = .ok p → p.name = "" →
      client.existsPVC nth pvc ns = (false, none)) ∧
    (∀ err, client.claimGet nth ns pvc = .error err →
      client.existsPVC nth pvc ns = (false, some err)) := by
  refine ⟨fun p hget hname => ?_, fun p hget hname => ?_, fun err hget => ?_⟩
  · simp [K8sClient.existsPVC, hget, hname]
  · simp [K8sClient.existsPVC, hget, hname]
  · simp [K8sClient.existsPVC, hget]

/-- Witness of the amended C8: a stored claim, an answer without a name, and
an absent claim. -/
theorem existsPVC_spec_witness :
    (fakeCreateClientPVC testPVC).existsPVC 0 "test-pvc" "default" = (true, none) ∧
    ({ fakeCreateClient with claimGet := fun _ _ _ => .ok {} } : K8sClient).existsPVC 0
      "test-pvc" "default" = (false, none) ∧
    fakeCreateClient.existsPVC 0 "test-pvc" "default" =
      (false, some (.notFound "persistentvolumeclaims test-pvc not found")) :=
  ⟨(existsPVC_spec (fakeCreateClientPVC testPVC) 0 "test-pvc" "default").1 testPVC rfl (by decide),
   (existsPVC_spec _ 0 "test-pvc" "default").2.1 {} rfl rfl,
   (existsPVC_spec fakeCreateClient 0 "test-pvc" "default").2.2 _ rfl⟩

/-- C9, the code at the failing input: for the claim of the test file, which
exists and has no volume mode, `isPVCVolumeBlock` dereferences the nil mode
pointer instead of returning an error, and so does `run`, before any pod is
created; with the mode set to Block it returns (true, nil), with Filesystem
(false, nil). -/
theorem isPVCVolumeBlock_unset_mode_nil_dereference :
    (fakeCreateClientPVC testPVC).claimGet 1 "default" "test-pvc" = .ok testPVC ∧
    testPVC.volumeMode = none ∧
    (fakeCreateClientPVC testPVC).isPVCVolumeBlock 1 "test-pvc" "default" = .nilDereference ∧
    (run (testGlobals (fakeCreateClientPVC testPVC)) testConfig).outcome = .nilDereference ∧
    (run (testGlobals (fakeCreateClientPVC testPVC)) testConfig).log =
      [.claimGet "default" "test-pvc", .podList "default", .claimGet "default" "test-pvc"] ∧
    (fakeCreateClientPVC (testPVCWithMode "Block")).isPVCVolumeBlock 1 "test-pvc" "default" =
      .returned (true, none) ∧
    (fakeCreateClientPVC (testPVCWithMode "Filesystem")).isPVCVolumeBlock 1 "test-pvc" "default" =
      .returned (false, none) := by
  refine ⟨rfl, rfl, rfl, ?_, ?_, ?_, ?_⟩
  · rfl
  · rfl
  · rfl
  · rfl

/-- The claim C5 fails on a fetched phase other than Running and on a failed
fetch: with the phase Failed reported, and with a first pod get that fails
(answering the error with a non-nil zero pod), `waitForContainerRunning`
returns neither nil nor the timeout error but a third error,
"Pod is not in running state but got <message>"; the second backend reports
Running from its second get on. -/
theorem waitForContainerRunning_third_outcome :
    fakeCreateClientPodFailed.waitForContainerRunning "libguestfs-tools" "virt" "default" 20000 =
      .returned (some (.errorf "Pod is not in running state but got Failed")) ∧
    fakeCreateClientPodFailed.waitForContainerRunning "libguestfs-tools" "virt" "default" 20000 ≠
      .returned none ∧
    fakeCreateClientPodFailed.waitForContainerRunning "libguestfs-tools" "virt" "default" 20000 ≠
      .returned (some (.errorf
        "timeout in waiting for the containers to be started in pod libguestfs-tools")) ∧
    fakeCreateClientGetFailsZeroPod.waitForContainerRunning "libguestfs-tools" "virt" "default"
      20000 = .returned (some (.errorf "Pod is not in running state but got connection refused")) ∧
    (fakeCreateClientGetFailsZeroPod.podGet 1 "default" "libguestfs-tools") =
      { pod := some podRunning } := by
  have h1 : fakeCreateClientPodFailed.waitForContainerRunning "libguestfs-tools" "virt"
      "default" 20000 = .returned (some (.errorf "Pod is not in running state but got Failed")) :=
    rfl
  refine ⟨h1, ?_, ?_, rfl, rfl⟩
  · rw [h1]
    decide
  · rw [h1]
    decide

/-- C5, amended: for every sequence of poll results and every timeout (counted
in polls), as far as the pod gets answer a non-nil pod,
`waitForContainerRunning` has three possible outcomes, decided by the first
poll that sends a message before the timeout.  If every poll before the
timeout succeeds with phase Pending, it returns the timeout error naming the
pod.  Otherwise the first poll that is not such a one decides: when its fetch
failed, the message is that of the fetch error, and when the fetch succeeded
with a phase other than Pending, the message is that phase; the result is nil
when the message is "Running" and otherwise the error
"Pod is not in running state but got <message>". -/
theorem waitForContainerRunning_outcomes (client : K8sClient) (pod cont ns : String)
    (timeout : Nat) :
    ((∀ i, i < timeout → (client.podGet i ns pod).err = none ∧
        ∃ p, (client.podGet i ns pod).pod = some p ∧ p.status.phase = PodPending) →
      client.waitForContainerRunning pod cont ns timeout =
        .returned (some (.errorf
          ("timeout in waiting for the containers to be started in pod " ++ pod)))) ∧
    (∀ k, k < timeout →
      (∀ i, i < k → (client.podGet i ns pod).err = none ∧
        ∃ p, (client.podGet i ns pod).pod = some p ∧ p.status.phase = PodPending) →
      ∀ err p, (client.podGet k ns pod).err = some err →
      (client.podGet k ns pod).pod = some p →
      client.waitForContainerRunning pod cont ns timeout =
        .returned (if err.Error = "Running" then none
          else some (.errorf ("Pod is not in running state but got " ++ err.Error)))) ∧
    (∀ k, k < timeout →
      (∀ i, i < k → (client.podGet i ns pod).err = none ∧
        ∃ p, (client.podGet i ns pod).pod = some p ∧ p.status.phase = PodPending) →
      ∀ p, (client.podGet k ns pod).err = none →
      (client.podGet k ns pod).pod = some p → p.status.phase ≠ PodPending →
      client.waitForContainerRunning pod cont ns timeout =
        .returned (if p.status.phase = "Running" then none
          else some (.errorf ("Pod is not in running state but got " ++ p.status.phase)))) ∧
    ((∀ i, i < timeout → (client.podGet i ns pod).pod ≠ none) →
      client.waitForContainerRunning pod cont ns timeout = .returned none ∨
      client.waitForContainerRunning pod cont ns timeout =
        .returned (some (.errorf
          ("timeout in waiting for the containers to be started in pod " ++ pod))) ∨
      ∃ res, res ≠ "Running" ∧ client.waitForContainerRunning pod cont ns timeout =
        .returned (some (.errorf ("Pod is not in running state but got " ++ res)))) := by
  refine ⟨?_, ?_, ?_, ?_⟩
  · intro hall
    simp only [K8sClient.waitForContainerRunning, poll_timedOut client pod ns timeout hall]
  · intro k hk hquiet err p herr hpod
    simp only [K8sClient.waitForContainerRunning,
      poll_fetch_error client pod ns timeout k hk hquiet err p herr hpod, PodRunning]
    split <;> rfl
  · intro k hk hquiet p herr hpod hphase
    simp only [K8sClient.waitForContainerRunning,
      poll_phase client pod ns timeout k hk hquiet p herr hpod hphase, PodRunning]
    split <;> rfl
  · intro hpods
    have hnp := poll_not_panicked client pod ns timeout 0
      (fun j hj => by rw [Nat.zero_add]; exact hpods j hj)
    unfold K8sClient.waitForContainerRunning
    cases hp : client.poll pod ns 0 timeout with
    | panicked gets => exact absurd hp (hnp gets)
    | timedOut gets => exact Or.inr (Or.inl rfl)
    | received res gets room =>
      by_cases hres : res = PodRunning
      · left
        simp [hres]
      · right
        right
        exact ⟨res, hres, by simp [hres]⟩

/-- Witness of the amended C5: a backend that stays Pending (timeout), one
whose first get fails with a non-nil pod, one that reports Failed, and one
that reports Pending twice and then Running. -/
theorem waitForContainerRunning_outcomes_witness :
    fakeCreateClientNeverRunning.waitForContainerRunning "libguestfs-tools" "virt" "default" 20000 =
      .returned (some (.errorf
        "timeout in waiting for the containers to be started in pod libguestfs-tools")) ∧
    fakeCreateClientGetFailsZeroPod.waitForContainerRunning "libguestfs-tools" "virt" "default"
      20000 = .returned (some (.errorf "Pod is not in running state but got connection refused")) ∧
    fakeCreateClientPodFailed.waitForContainerRunning "libguestfs-tools" "virt" "default" 20000 =
      .returned (some (.errorf "Pod is not in running state but got Failed")) ∧
    fakeCreateClientSlowStart.waitForContainerRunning "libguestfs-tools" "virt" "default" 20000 =
      .returned none :=
  ⟨(waitForContainerRunning_outcomes fakeCreateClientNeverRunning "libguestfs-tools" "virt"
      "default" 20000).1 (fun _ _ => ⟨rfl, podPending, rfl, rfl⟩),
   (waitForContainerRunning_outcomes fakeCreateClientGetFailsZeroPod "libguestfs-tools" "virt"
      "default" 20000).2.1 0 (by decide) (fun i hi => absurd hi (Nat.not_lt_zero i))
      (.failure "connection refused") {} rfl rfl,
   (waitForContainerRunning_outcomes fakeCreateClientPodFailed "libguestfs-tools" "virt"
      "default" 20000).2.2.1 0 (by decide) (fun i hi => absurd hi (Nat.not_lt_zero i))
      podFailed rfl rfl (by decide),
   (waitForContainerRunning_outcomes fakeCreateClientSlowStart "libguestfs-tools" "virt"
      "default" 20000).2.2.1 2 (by decide)
      (fun i hi => by
        have hlt : (fun i => if i < 2 then ({ pod := some podPending } : PodGetAnswer)
            else { pod := some podRunning }) i = { pod := some podPending } := by simp [hi]
        exact ⟨congrArg PodGetAnswer.err hlt, podPending, congrArg PodGetAnswer.pod hlt, rfl⟩)
      podRunning rfl rfl (by decide)⟩

end Guestfs
